import Mathlib

/-!
# Verification of the Response Orchestration Core (`src/services/aiService.js`)

A shallow embedding of the AI-service orchestration core of the
`alfasharksflow` backend, together with theorems settling the spec claims.
JS strings are Lean `String`s, JS arrays are Lean `List`s, the external
SQLite store (`database/init.js`, not part of the sources) is modelled from
the spec as an explicit environment, and the two sources of nondeterminism
(the outbound HTTP call outcome and `Math.random()`) are explicit inputs.
-/

namespace AlfaSharksFlow

/-- `String.prototype.toLowerCase` for one character, restricted to the
alphabets this service manipulates: ASCII `A`–`Z` and the Latin-1 accented
uppercase letters `U+00C0`–`U+00DE` (except `×`, `U+00D7`) map to their
lowercase forms 32 code points higher; everything else is unchanged. -/
def jsCharToLower (c : Char) : Char :=
  if 'A' ≤ c ∧ c ≤ 'Z' then Char.ofNat (c.toNat + 32)
  else if 0xC0 ≤ c.toNat ∧ c.toNat ≤ 0xDE ∧ c.toNat ≠ 0xD7 then Char.ofNat (c.toNat + 32)
  else c

/-- JS `text.toLowerCase()`. -/
def jsToLower (s : String) : String := String.mk (s.data.map jsCharToLower)

/-- `needle` occurs as a contiguous run inside `hay`. -/
def charsInfix (needle : List Char) : List Char → Bool
  | [] => needle.isEmpty
  | c :: rest => needle.isPrefixOf (c :: rest) || charsInfix needle rest

/-- JS `s.includes(sub)`: `sub` occurs contiguously inside `s`. -/
def jsIncludes (s sub : String) : Bool := charsInfix sub.data s.data

/-- Characters matched by the regex class `\s` (ASCII part). -/
def isWsChar (c : Char) : Bool :=
  c = ' ' || c = '\t' || c = '\n' || c = '\r' || c.toNat = 0xB || c.toNat = 0xC

/-- Maximal runs of non-whitespace characters of `cs`, in order.
`cur` is the current run reversed, `acc` the finished runs reversed. -/
def nonWsRuns : List Char → List Char → List (List Char) → List (List Char)
  | [], cur, acc => (if cur.isEmpty then acc else cur.reverse :: acc).reverse
  | c :: rest, cur, acc =>
    if isWsChar c then
      if cur.isEmpty then nonWsRuns rest [] acc
      else nonWsRuns rest [] (cur.reverse :: acc)
    else nonWsRuns rest (c :: cur) acc

/-- JS `text.split(/\s+/)`: the pieces between maximal whitespace runs, with
an empty leading piece when the text starts with whitespace, an empty
trailing piece when it ends with whitespace, and `[""]` on empty input
(the regex never matches inside the empty string, so JS returns the whole
string as the only piece). -/
def jsSplitWs (s : String) : List String :=
  match s.data with
  | [] => [""]
  | c :: rest =>
    let runs := (nonWsRuns (c :: rest) [] []).map String.mk
    let runs2 := if isWsChar c then "" :: runs else runs
    if isWsChar ((c :: rest).getLast (by simp)) then runs2 ++ [""] else runs2

/-- The fixed domain vocabulary of `extractKeywords`
(`aiService.js` lines 101–107). -/
def financialTerms : List String :=
  ["WINFUT", "INDFUT", "DOLFUT", "WDOFUT", "BITFUT",
   "bovespa", "ibovespa", "futuros", "day trade", "swing trade",
   "scalping", "breakout", "support", "resistance", "macd",
   "rsi", "bollinger", "fibonacci", "candlestick", "volume",
   "análise técnica", "análise fundamentalista"]

/-- `extractKeywords(text)` (`aiService.js` lines 99–115): lowercase, split on
whitespace, keep a token when it relates to a vocabulary entry by substring
containment in either direction (the vocabulary entry lowercased) or when it
is longer than 4 characters, and cap the result at 10 tokens. -/
def extractKeywords (text : String) : List String :=
  let words := jsSplitWs (jsToLower text)
  (words.filter fun word =>
    (financialTerms.any fun term =>
      jsIncludes (jsToLower term) word || jsIncludes word (jsToLower term))
    || decide (4 < word.length)).take 10

example : extractKeywords "" = [""] := by decide
example : extractKeywords "Qual a tendência do WINFUT hoje" =
    ["a", "tendência", "do", "winfut"] := by decide

/-- The closed enumeration of advisory modes (`aiService.js` lines 24–44;
unknown modes are rejected by the chat route before reaching the core). -/
inductive Mode
  | consulta
  | daytrade
  | portfolio
  | robot
deriving DecidableEq, BEq, Repr

/-- `this.financialPrompts` (`aiService.js` lines 24–44): the mode-specific
system instruction templates, transcribed verbatim from the JS template
literals (the continuation lines keep their 12-space indentation). -/
def financialPrompts : Mode → String
  | .consulta =>
    "Você é um analista financeiro especializado no mercado brasileiro. \n            Forneça análises técnicas e fundamentalistas precisas, sempre baseadas em dados reais quando possível.\n            Use termos técnicos adequados e seja específico em suas recomendações.\n            Sempre inclua disclaimers sobre riscos de investimento."
  | .daytrade =>
    "Você é um especialista em day trade focado nos futuros da B3 (WINFUT, INDFUT, DOLFUT, WDOFUT, BITFUT).\n            Forneça análises técnicas específicas com pontos de entrada, stop loss e alvos.\n            Considere volume, padrões de candlestick e indicadores técnicos.\n            Seja preciso com níveis de preço e sempre mencione o gerenciamento de risco."
  | .portfolio =>
    "Você é um consultor de investimentos especializado em otimização de portfólios.\n            Analise diversificação, correlações entre ativos e perfil de risco.\n            Forneça recomendações de alocação baseadas em teoria moderna de portfólio.\n            Considere o cenário macroeconômico brasileiro e global."
  | .robot =>
    "Você é um programador especializado em desenvolvimento de robôs de trading para a plataforma Nelogica.\n            Use a linguagem NTFL (Nelogica Trading Formula Language).\n            Forneça código limpo, comentado e testável.\n            Inclua explicações sobre a lógica da estratégia e parâmetros de configuração."

/-- A provider profile from `this.providers` (`aiService.js` lines 6–22). -/
structure ProviderProfile where
  url : String
  model : String
  maxTokens : Nat
deriving DecidableEq, Repr

/-- `this.providers` (`aiService.js` lines 6–22), keyed by provider id;
`none` models the `undefined` a JS property access with any other key
would produce. -/
def providers (id : String) : Option ProviderProfile :=
  if id = "openai" then
    some ⟨"https://api.openai.com/v1/chat/completions", "gpt-4-turbo-preview", 4000⟩
  else if id = "claude" then
    some ⟨"https://api.anthropic.com/v1/messages", "claude-3-sonnet-20240229", 4000⟩
  else if id = "deepseek" then
    some ⟨"https://api.deepseek.com/v1/chat/completions", "deepseek-chat", 4000⟩
  else none

/-- `selectProvider(message, mode)` (`aiService.js` lines 144–160). -/
def selectProvider (message : String) (mode : Mode) : String :=
  if mode == Mode.robot || jsIncludes (jsToLower message) "código"
      || jsIncludes (jsToLower message) "ntfl" then
    "openai"
  else if mode == Mode.daytrade || jsIncludes (jsToLower message) "análise técnica" then
    "claude"
  else if jsIncludes (jsToLower message) "previsão"
      || jsIncludes (jsToLower message) "tendência" then
    "deepseek"
  else
    "openai"

/-- A row returned by the knowledge query of `searchKnowledge`
(`title, content, category, subcategory`). -/
structure KnowledgeItem where
  title : String
  content : String
  category : String
  subcategory : String
deriving DecidableEq, Repr

/-- One turn of the conversation history handed to `generateResponse`. -/
structure ConversationTurn where
  role : String
  content : String
deriving DecidableEq, Repr

/-- The knowledge block of `buildContext` (`aiService.js` lines 120–127):
emitted only when `knowledge` is non-empty, one `- title: content` line per
snippet, followed by a blank line. -/
def knowledgeSection (knowledge : List KnowledgeItem) : String :=
  if knowledge.length > 0 then
    "Conhecimento relevante:\n"
      ++ String.join (knowledge.map fun item =>
          "- " ++ item.title ++ ": " ++ item.content ++ "\n")
      ++ "\n"
  else ""

/-- The history block of `buildContext` (`aiService.js` lines 129–137):
emitted only when `history` is non-empty, one `role: content` line per turn
of `history.slice(-5)` (the last five turns, oldest of the window first),
followed by a blank line. -/
def historySection (history : List ConversationTurn) : String :=
  if history.length > 0 then
    "Contexto da conversa:\n"
      ++ String.join ((history.drop (history.length - 5)).map fun msg =>
          msg.role ++ ": " ++ msg.content ++ "\n")
      ++ "\n"
  else ""

/-- `buildContext(message, mode, knowledge, history)`
(`aiService.js` lines 117–142): the sequential `context +=` steps of the
source, written as one concatenation. -/
def buildContext (message : String) (mode : Mode) (knowledge : List KnowledgeItem)
    (history : List ConversationTurn) : String :=
  financialPrompts mode ++ "\n\n" ++ knowledgeSection knowledge
    ++ historySection history
    ++ "Pergunta do usuário: " ++ message ++ "\n\nResposta:"

/-- The normalized outcome of one provider call helper
(`callOpenAI` / `callClaude` / `callDeepSeek`, `aiService.js` lines 178–232):
the extracted text plus the token count read from the provider's usage
accounting; `tokensUsed = none` models the JS `undefined` obtained when the
usage object lacks the expected field. -/
structure ProviderReply where
  content : String
  tokensUsed : Option Nat
deriving DecidableEq, Repr

/-- The two canned analyses of `getMockResponse`
(`aiService.js` lines 234–288), transcribed verbatim. -/
def mockResponses : List ProviderReply :=
  [⟨"Baseado na análise técnica atual, identifiquei alguns pontos importantes:\n\n📊 **Análise Geral do Mercado:**\n• IBOVESPA está testando resistência em 130.000 pontos\n• Volume médio nas últimas sessões\n• Tendência de curto prazo lateral com viés de alta\n\n📈 **WINFUT - Recomendações:**\n• Suporte: 127.800 / 127.500\n• Resistência: 128.400 / 128.700\n• Estratégia: Aguardar rompimento para definir direção\n\n⚠️ **Gestão de Risco:**\n• Stop loss sempre abaixo do suporte identificado\n• Position size adequado ao seu capital\n• Não arrisque mais de 2% do capital por operação\n\n*Esta análise é baseada em dados técnicos e não constitui recomendação de investimento. Sempre consulte um assessor financeiro.*",
    some 150⟩,
   ⟨"Análise técnica para Day Trade:\n\n🎯 **WINFUT - Setup Atual:**\n• Preço: 128.100 pontos\n• Movimento lateral entre 127.800 e 128.400\n• MACD em divergência positiva\n• RSI em 55 (neutro)\n\n📋 **Estratégia Sugerida:**\n1. **Entrada Long:** Rompimento de 128.400 com volume\n2. **Stop Loss:** 127.950 (45 pontos)\n3. **Alvo 1:** 128.700 (30 pontos)\n4. **Alvo 2:** 129.000 (60 pontos)\n\n🔍 **INDFUT - Observações:**\n• Maior volatilidade que WINFUT\n• Correlação alta com IBOV\n• Requer maior capital devido ao tick\n\n⚡ **Dicas para Day Trade:**\n• Opere apenas nos horários de maior volume (10h-11h30 / 14h-16h)\n• Use ordens stop para proteção automática\n• Acompanhe os índices americanos para confluência\n\n*Lembrando que day trade é uma atividade de alto risco.*",
    some 180⟩]

/-- `getMockResponse()` (`aiService.js` lines 234–288):
`responses[Math.floor(Math.random() * responses.length)]`, with the value of
`Math.random()` made explicit as the index `pick`. -/
def getMockResponse (pick : Fin 2) : ProviderReply :=
  mockResponses.get ⟨pick.val, pick.isLt⟩

/-- The environment of one dispatch: `providerResult pid ctx` is the
normalized outcome of the outbound HTTP call to provider `pid` with prompt
`ctx` (`none` models any raised failure: transport error, non-success
status, or a malformed body that breaks normalization), and `randomPick`
is the value of `Math.random()` consumed by `getMockResponse`. -/
structure DispatchEnv where
  providerResult : String → String → Option ProviderReply
  randomPick : Fin 2

/-- The `try`/`catch` body shared by the three branches of `callAIProvider`
(`aiService.js` lines 162–176): a raised provider failure is swallowed and
replaced by the mock response. -/
def tryCall (env : DispatchEnv) (provider context : String) : ProviderReply :=
  match env.providerResult provider context with
  | some reply => reply
  | none => getMockResponse env.randomPick

/-- `callAIProvider(provider, context)` (`aiService.js` lines 162–176).
The `none` result models the `undefined` the JS function returns when
`provider` matches none of the three branches. -/
def callAIProvider (env : DispatchEnv) (provider context : String) :
    Option ProviderReply :=
  if provider = "openai" then some (tryCall env provider context)
  else if provider = "claude" then some (tryCall env provider context)
  else if provider = "deepseek" then some (tryCall env provider context)
  else none

/-- The result shape `generateResponse` hands to its caller
(`aiService.js` lines 66–71 and 290–319). -/
structure DispatchResult where
  content : String
  provider : String
  tokensUsed : Nat
  model : String
deriving DecidableEq, Repr

/-- `getFallbackResponse(mode)` (`aiService.js` lines 290–319): the
mode-specific canned advisory result used when an error escapes the
dispatcher inside `generateResponse`. -/
def getFallbackResponse (mode : Mode) : DispatchResult :=
  match mode with
  | .consulta =>
    { content := "Desculpe, estou enfrentando dificuldades técnicas no momento. Por favor, tente novamente em alguns minutos ou reformule sua pergunta."
      provider := "fallback", tokensUsed := 50, model := "fallback" }
  | .daytrade =>
    { content := "Sistema de análise técnica temporariamente indisponível. Para day trade, sempre lembre-se de usar stop loss e não arriscar mais de 2% do capital por operação."
      provider := "fallback", tokensUsed := 50, model := "fallback" }
  | .portfolio =>
    { content := "Serviço de análise de portfólio em manutenção. Em breve estaremos de volta com análises completas de diversificação e otimização."
      provider := "fallback", tokensUsed := 50, model := "fallback" }
  | .robot =>
    { content := "Gerador de código NTFL temporariamente offline. Consulte a documentação da Nelogica para referências de programação."
      provider := "fallback", tokensUsed := 50, model := "fallback" }

/-- A row of the `users` table, as read by `logUsage`. -/
structure UserRow where
  plan : String
  credits : Int
deriving DecidableEq, Repr

/-- A row of the `api_logs` table, as inserted by `logUsage`. -/
structure ApiLog where
  userId : Nat
  endpoint : String
  method : String
  statusCode : Nat
deriving DecidableEq, Repr

/-- Modelled from the spec: the external account store and audit sink
(`database/init.js`, which is not among the sources). `users` maps a user
id to its row (the spec's `CreditAccount`), `apiLogs` is the append-only
audit trail (the spec's UsageRecord sink). -/
structure DbState where
  users : Nat → Option UserRow
  apiLogs : List ApiLog

/-- `logUsage(userId, provider, tokensUsed)` (`aiService.js` lines 321–343):
read the user's plan and credits; for an existing `free`/`basic` account
with a positive balance run `UPDATE users SET credits = credits - 1`; in
every case insert one `api_logs` row. Neither `provider` nor `tokensUsed`
influences the state change. -/
def logUsage (db : DbState) (userId : Nat) (_provider : String)
    (_tokensUsed : Nat) : DbState :=
  let db1 :=
    match db.users userId with
    | some user =>
      if (user.plan = "free" ∨ user.plan = "basic") ∧ user.credits > 0 then
        { db with users := fun i =>
            if i = userId then some { user with credits := user.credits - 1 }
            else db.users i }
      else db
    | none => db
  { db1 with apiLogs := db1.apiLogs ++ [⟨userId, "ai_chat", "POST", 200⟩] }

/-- The query `searchKnowledge` sends to the knowledge store: three LIKE
patterns (for title, content and tags) and the `LIMIT` row cap. -/
structure SqlQuery where
  patterns : List String
  limit : Nat
deriving DecidableEq, Repr

/-- `searchKnowledge(query, mode)` (`aiService.js` lines 79–97): build the
`%keyword%…%` pattern from the extracted keywords, query the external store
with `LIMIT 5`, and return `[]` when the store fails. The store itself
(`database.all` of `database/init.js`, not among the sources) is an
explicit argument. -/
def searchKnowledge (store : SqlQuery → Except Unit (List KnowledgeItem))
    (query : String) (_mode : Mode) : List KnowledgeItem :=
  let keywords := extractKeywords query
  let pat := "%" ++ String.intercalate "%" keywords ++ "%"
  match store ⟨[pat, pat, pat], 5⟩ with
  | .ok knowledge => knowledge
  | .error _ => []

/-- JS `x || d` applied to a numeric token count: `undefined` (`none`)
and `0` are falsy and replaced by the default. -/
def jsNumOr (v : Option Nat) (d : Nat) : Nat :=
  match v with
  | none => d
  | some 0 => d
  | some t => t

/-- The external world of one `generateResponse` call: the knowledge store
and the dispatch environment. -/
structure GenEnv where
  store : SqlQuery → Except Unit (List KnowledgeItem)
  dispatch : DispatchEnv

/-- `generateResponse(message, mode, userId, conversationHistory)`
(`aiService.js` lines 47–77), with the sequential `const` bindings of the
source inlined. The `none` branch of the dispatch corresponds to the outer
`catch`: the only statement inside the `try` that can raise is the property
access on the `undefined` that `callAIProvider` returns for an unknown
provider id (every inner helper catches its own failures), and it fires
before `logUsage`, so the fallback path leaves the store untouched. -/
def generateResponse (env : GenEnv) (db : DbState) (message : String)
    (mode : Mode) (userId : Option Nat)
    (conversationHistory : List ConversationTurn) : DispatchResult × DbState :=
  match callAIProvider env.dispatch (selectProvider message mode)
      (buildContext message mode (searchKnowledge env.store message mode)
        conversationHistory) with
  | some response =>
    ({ content := response.content
       provider := selectProvider message mode
       tokensUsed := jsNumOr response.tokensUsed 100
       model :=
         match providers (selectProvider message mode) with
         | some p => p.model
         | none => "" },
     match userId with
     | some uid =>
       logUsage db uid (selectProvider message mode)
         (jsNumOr response.tokensUsed 100)
     | none => db)
  | none => (getFallbackResponse mode, db)

/-! ## Helper lemmas -/

/-- `selectProvider` only ever produces one of the three configured ids. -/
lemma selectProvider_mem (message : String) (mode : Mode) :
    selectProvider message mode = "openai" ∨ selectProvider message mode = "claude"
      ∨ selectProvider message mode = "deepseek" := by
  unfold selectProvider
  split
  · exact Or.inl rfl
  · split
    · exact Or.inr (Or.inl rfl)
    · split
      · exact Or.inr (Or.inr rfl)
      · exact Or.inl rfl

/-- For any of the three configured provider ids the dispatcher returns the
(sole) normalized reply: the provider's own on success, the mock on failure. -/
lemma callAIProvider_eq_some (env : DispatchEnv) (p ctx : String)
    (h : p = "openai" ∨ p = "claude" ∨ p = "deepseek") :
    callAIProvider env p ctx = some (tryCall env p ctx) := by
  rcases h with h | h | h <;> subst h <;> simp [callAIProvider]

/-- `x || 100` on a JS token count is strictly positive. -/
lemma jsNumOr_pos (v : Option Nat) : 0 < jsNumOr v 100 := by
  match v with
  | none => decide
  | some 0 => decide
  | some (t + 1) => simp [jsNumOr]

/-- String length distributes over append. -/
lemma strLength_append (a b : String) : (a ++ b).length = a.length + b.length := by
  cases a with
  | mk da =>
    cases b with
    | mk db => exact List.length_append da db

/-- The knowledge block is empty exactly when no snippet was retrieved. -/
lemma knowledgeSection_eq_empty_iff (k : List KnowledgeItem) :
    knowledgeSection k = "" ↔ k = [] := by
  cases k with
  | nil => simp [knowledgeSection]
  | cons a t =>
    constructor
    · intro h
      exfalso
      have hl := congrArg String.length h
      rw [show knowledgeSection (a :: t)
            = "Conhecimento relevante:\n"
              ++ String.join ((a :: t).map fun item =>
                  "- " ++ item.title ++ ": " ++ item.content ++ "\n")
              ++ "\n" from by simp [knowledgeSection]] at hl
      rw [strLength_append, strLength_append] at hl
      have h1 : ("Conhecimento relevante:\n" : String).length = 24 := rfl
      have h2 : ("\n" : String).length = 1 := rfl
      have h3 : ("" : String).length = 0 := rfl
      omega
    · intro h
      exact absurd h (List.cons_ne_nil a t)

/-- The history block is empty exactly when the history is empty. -/
lemma historySection_eq_empty_iff (h : List ConversationTurn) :
    historySection h = "" ↔ h = [] := by
  cases h with
  | nil => simp [historySection]
  | cons a t =>
    constructor
    · intro hEq
      exfalso
      have hl := congrArg String.length hEq
      rw [show historySection (a :: t)
            = "Contexto da conversa:\n"
              ++ String.join (((a :: t).drop ((a :: t).length - 5)).map fun msg =>
                  msg.role ++ ": " ++ msg.content ++ "\n")
              ++ "\n" from by simp [historySection]] at hl
      rw [strLength_append, strLength_append] at hl
      have h1 : ("Contexto da conversa:\n" : String).length = 22 := rfl
      have h2 : ("\n" : String).length = 1 := rfl
      have h3 : ("" : String).length = 0 := rfl
      omega
    · intro hEq
      exact absurd hEq (List.cons_ne_nil a t)

/-- The history block only depends on the last five turns. -/
lemma historySection_drop (h : List ConversationTurn) :
    historySection (h.drop (h.length - 5)) = historySection h := by
  cases h with
  | nil => rfl
  | cons a t =>
    have hdlen : ((a :: t).drop ((a :: t).length - 5)).length
        = (a :: t).length - ((a :: t).length - 5) := List.length_drop ..
    have hlen : (a :: t).length = t.length + 1 := rfl
    unfold historySection
    rw [if_pos (by omega), if_pos (by simp)]
    have hz : ((a :: t).drop ((a :: t).length - 5)).length - 5 = 0 := by omega
    rw [hz, List.drop_zero]

/-- The assembled context only depends on the last five turns of history. -/
lemma buildContext_drop (message : String) (mode : Mode)
    (k : List KnowledgeItem) (h : List ConversationTurn) :
    buildContext message mode k (h.drop (h.length - 5))
      = buildContext message mode k h := by
  unfold buildContext
  rw [historySection_drop]

/-! ## Claim theorems -/

/-- The provider-selection decision list as the spec (§4.4) words it: the
rules in priority order, each a guard with its provider, first match wins,
default provider A. -/
def specSelectionRules (message : String) (mode : Mode) : List (Bool × String) :=
  [(mode == Mode.robot || jsIncludes (jsToLower message) "código"
      || jsIncludes (jsToLower message) "ntfl", "openai"),
   (mode == Mode.daytrade || jsIncludes (jsToLower message) "análise técnica",
    "claude"),
   (jsIncludes (jsToLower message) "previsão"
      || jsIncludes (jsToLower message) "tendência", "deepseek")]

/-- First-match-wins evaluation of a guarded rule list. -/
def firstMatch (dflt : String) : List (Bool × String) → String
  | [] => dflt
  | (cond, pid) :: rest => if cond then pid else firstMatch dflt rest

/-- The spec's contract for `selectProvider`, §4.4 verbatim: evaluate the
priority-ordered rule list, defaulting to provider A (`openai`). -/
def selectProviderSpec (message : String) (mode : Mode) : String :=
  firstMatch "openai" (specSelectionRules message mode)

/-- C2: `selectProvider` is a total pure function returning exactly one of
the three configured provider ids, and it implements the spec's
priority-ordered first-match-wins rule list; in particular mode `robot`
with a message containing "tendência" yields provider A (`openai`). -/
theorem c2_selectProvider_priority :
    (∀ (message : String) (mode : Mode),
        selectProvider message mode = selectProviderSpec message mode)
    ∧ (∀ (message : String) (mode : Mode),
        selectProvider message mode = "openai"
          ∨ selectProvider message mode = "claude"
          ∨ selectProvider message mode = "deepseek")
    ∧ selectProvider "qual a tendência do mercado" Mode.robot = "openai" := by
  refine ⟨fun message mode => rfl, fun message mode => selectProvider_mem .., ?_⟩
  decide

/-- C5 counterexample: on the empty message `extractKeywords` does not
return the empty sequence — JS `"".split(/\s+/)` is `[""]` and the empty
token survives the vocabulary filter, because every vocabulary entry
contains the empty substring. -/
theorem c5_counterexample : extractKeywords "" ≠ ([] : List String) := by
  decide

/-- C5 (amended): `extractKeywords ""` is the one-element sequence holding
the empty token, and on every input the result is a well-defined sequence
of at most 10 tokens (the function is total; no error path exists). -/
theorem c5_extractKeywords_empty :
    extractKeywords "" = [""]
    ∧ ∀ text : String, (extractKeywords text).length ≤ 10 := by
  refine ⟨by decide, fun text => ?_⟩
  unfold extractKeywords
  exact List.length_take_le ..

/-- C6: on "Qual a tendência do WINFUT hoje" the extracted keywords contain
tokens matching "WINFUT" and "tendência" case-insensitively, hold no
duplicates, and number at most 10. -/
theorem c6_extractKeywords_example :
    (∃ w ∈ extractKeywords "Qual a tendência do WINFUT hoje",
        jsToLower w = jsToLower "WINFUT")
    ∧ (∃ w ∈ extractKeywords "Qual a tendência do WINFUT hoje",
        jsToLower w = jsToLower "tendência")
    ∧ (extractKeywords "Qual a tendência do WINFUT hoje").Nodup
    ∧ (extractKeywords "Qual a tendência do WINFUT hoje").length ≤ 10 := by
  refine ⟨⟨"winfut", ?_, by decide⟩, ⟨"tendência", ?_, by decide⟩, ?_, by decide⟩
  · decide
  · decide
  · decide

/-- `selectProvider` always picks a configured provider, so the dispatch
match always takes its success branch: `generateResponse` is the literal
result record built from the (possibly mock-substituted) reply, paired with
the metered store when a user is present. -/
lemma generateResponse_eq (env : GenEnv) (db : DbState) (message : String)
    (mode : Mode) (userId : Option Nat) (hist : List ConversationTurn) :
    generateResponse env db message mode userId hist =
      ({ content := (tryCall env.dispatch (selectProvider message mode)
            (buildContext message mode (searchKnowledge env.store message mode)
              hist)).content
         provider := selectProvider message mode
         tokensUsed := jsNumOr (tryCall env.dispatch (selectProvider message mode)
            (buildContext message mode (searchKnowledge env.store message mode)
              hist)).tokensUsed 100
         model :=
           match providers (selectProvider message mode) with
           | some p => p.model
           | none => "" },
       match userId with
       | some uid =>
         logUsage db uid (selectProvider message mode)
           (jsNumOr (tryCall env.dispatch (selectProvider message mode)
             (buildContext message mode (searchKnowledge env.store message mode)
               hist)).tokensUsed 100)
       | none => db) := by
  unfold generateResponse
  rw [callAIProvider_eq_some env.dispatch (selectProvider message mode) _
    (selectProvider_mem message mode)]

/-- Each mock reply carries the fixed token count of its canned analysis. -/
lemma getMockResponse_tokens (pick : Fin 2) :
    (getMockResponse pick).tokensUsed = some 150
      ∨ (getMockResponse pick).tokensUsed = some 180 := by
  match pick with
  | 0 => exact Or.inl rfl
  | 1 => exact Or.inr rfl

/-- Neither canned mock analysis is the empty text. -/
lemma getMockResponse_content_ne (pick : Fin 2) :
    (getMockResponse pick).content ≠ "" := by
  match pick with
  | 0 => decide
  | 1 => decide

/-- C4: the assembled context always ends with the literal user message
followed by the response marker; the knowledge and history sections are
present exactly when their inputs are non-empty; only the last five turns
of history matter; and a window of at most five turns is rendered in full,
one `role: content` line per turn, oldest first. -/
theorem c4_buildContext_structure :
    (∀ (message : String) (mode : Mode) (k : List KnowledgeItem)
        (h : List ConversationTurn),
        ∃ pre : String,
          buildContext message mode k h = pre ++ message ++ "\n\nResposta:")
    ∧ (∀ k : List KnowledgeItem, knowledgeSection k = "" ↔ k = [])
    ∧ (∀ h : List ConversationTurn, historySection h = "" ↔ h = [])
    ∧ (∀ (message : String) (mode : Mode) (k : List KnowledgeItem)
        (h : List ConversationTurn),
        buildContext message mode k (h.drop (h.length - 5))
          = buildContext message mode k h)
    ∧ (∀ h : List ConversationTurn, 0 < h.length → h.length ≤ 5 →
        historySection h
          = "Contexto da conversa:\n"
            ++ String.join (h.map fun msg => msg.role ++ ": " ++ msg.content ++ "\n")
            ++ "\n") := by
  refine ⟨fun message mode k h =>
      ⟨financialPrompts mode ++ "\n\n" ++ knowledgeSection k ++ historySection h
        ++ "Pergunta do usuário: ", rfl⟩,
    knowledgeSection_eq_empty_iff, historySection_eq_empty_iff,
    buildContext_drop, ?_⟩
  intro h h0 h5
  unfold historySection
  rw [if_pos h0, show h.length - 5 = 0 from by omega, List.drop_zero]

/-- C4 witness at concrete inputs. -/
theorem c4_witness :
    (∃ pre : String,
        buildContext "Como está o mercado" Mode.consulta [] []
          = pre ++ "Como está o mercado" ++ "\n\nResposta:")
    ∧ (knowledgeSection [] = "" ↔ ([] : List KnowledgeItem) = [])
    ∧ historySection [⟨"user", "oi"⟩]
        = "Contexto da conversa:\n"
          ++ String.join ([(⟨"user", "oi"⟩ : ConversationTurn)].map fun msg =>
              msg.role ++ ": " ++ msg.content ++ "\n")
          ++ "\n" :=
  ⟨c4_buildContext_structure.1 "Como está o mercado" Mode.consulta [] [],
   c4_buildContext_structure.2.1 [],
   c4_buildContext_structure.2.2.2.2 [⟨"user", "oi"⟩] (by decide) (by decide)⟩

/-- C9: the core consumes history read-only through the assembled context,
and only the last five turns matter — two histories agreeing on their
final five-turn window produce identical `generateResponse` results
(mutation is unrepresentable: every operation of the embedding is pure, as
the source only calls `slice` and `forEach` on the history). -/
theorem c9_history_window_readonly :
    ∀ (env : GenEnv) (db : DbState) (message : String) (mode : Mode)
      (userId : Option Nat) (h1 h2 : List ConversationTurn),
      h1.drop (h1.length - 5) = h2.drop (h2.length - 5) →
      generateResponse env db message mode userId h1
        = generateResponse env db message mode userId h2 := by
  intro env db message mode userId h1 h2 hw
  have hctx : buildContext message mode (searchKnowledge env.store message mode) h1
      = buildContext message mode (searchKnowledge env.store message mode) h2 := by
    rw [← buildContext_drop message mode _ h1, ← buildContext_drop message mode _ h2,
      hw]
  unfold generateResponse
  rw [hctx]

/-- C9 witness: a six-turn history behaves exactly like its last five turns. -/
theorem c9_witness :
    generateResponse ⟨fun _ => Except.ok [], ⟨fun _ _ => none, 0⟩⟩
        ⟨fun _ => none, []⟩ "oi" Mode.consulta none
        [⟨"user", "m1"⟩, ⟨"assistant", "m2"⟩, ⟨"user", "m3"⟩,
         ⟨"assistant", "m4"⟩, ⟨"user", "m5"⟩, ⟨"assistant", "m6"⟩]
      = generateResponse ⟨fun _ => Except.ok [], ⟨fun _ _ => none, 0⟩⟩
          ⟨fun _ => none, []⟩ "oi" Mode.consulta none
          [⟨"assistant", "m2"⟩, ⟨"user", "m3"⟩, ⟨"assistant", "m4"⟩,
           ⟨"user", "m5"⟩, ⟨"assistant", "m6"⟩] :=
  c9_history_window_readonly _ _ "oi" Mode.consulta none _ _ (by decide)

/-- C1 counterexample: with every outbound provider call failing, the
result of `generateResponse` carries the originally selected provider id
`"openai"`, not `"fallback"` — the claimed `providerId = "fallback"` is
false on the provider-failure path. -/
theorem c1_counterexample :
    (generateResponse ⟨fun _ => Except.ok [], ⟨fun _ _ => none, 0⟩⟩
        ⟨fun _ => none, []⟩ "oi" Mode.consulta none []).1.provider = "openai"
    ∧ (generateResponse ⟨fun _ => Except.ok [], ⟨fun _ _ => none, 0⟩⟩
        ⟨fun _ => none, []⟩ "oi" Mode.consulta none []).1.provider
        ≠ "fallback" := by
  constructor
  · decide
  · decide

/-- C1 (amended): when the outbound call of the selected provider fails,
the failure is swallowed inside `callAIProvider` and `generateResponse`
still returns a fully populated result — but its provider id is the
originally selected provider, its content is one of the two generic canned
mock analyses (non-empty, chosen by `Math.random()`, not mode-specific),
its token count is the mock's 150 or 180, and its model name is the
selected provider's configured model. The mode-specific `"fallback"`
result of `getFallbackResponse` is not produced on this path. -/
theorem c1_provider_failure_keeps_selected_provider :
    ∀ (env : GenEnv) (db : DbState) (message : String) (mode : Mode)
      (userId : Option Nat) (hist : List ConversationTurn),
      (∀ ctx, env.dispatch.providerResult (selectProvider message mode) ctx = none) →
      (generateResponse env db message mode userId hist).1.provider
          = selectProvider message mode
      ∧ (generateResponse env db message mode userId hist).1.content
          = (getMockResponse env.dispatch.randomPick).content
      ∧ (generateResponse env db message mode userId hist).1.content ≠ ""
      ∧ ((generateResponse env db message mode userId hist).1.tokensUsed = 150
          ∨ (generateResponse env db message mode userId hist).1.tokensUsed = 180)
      ∧ ∃ p : ProviderProfile,
          providers (selectProvider message mode) = some p
          ∧ (generateResponse env db message mode userId hist).1.model = p.model := by
  intro env db message mode userId hist hfail
  have htry : tryCall env.dispatch (selectProvider message mode)
      (buildContext message mode (searchKnowledge env.store message mode) hist)
      = getMockResponse env.dispatch.randomPick := by
    unfold tryCall
    rw [hfail]
  refine ⟨by rw [generateResponse_eq], by rw [generateResponse_eq]; rw [htry],
    ?_, ?_, ?_⟩
  · rw [generateResponse_eq]
    show (tryCall _ _ _).content ≠ ""
    rw [htry]
    exact getMockResponse_content_ne env.dispatch.randomPick
  · rw [generateResponse_eq]
    show jsNumOr (tryCall _ _ _).tokensUsed 100 = 150
      ∨ jsNumOr (tryCall _ _ _).tokensUsed 100 = 180
    rw [htry]
    rcases getMockResponse_tokens env.dispatch.randomPick with h | h <;> rw [h]
    · exact Or.inl rfl
    · exact Or.inr rfl
  · rcases selectProvider_mem message mode with h | h | h <;>
      exact ⟨_, by rw [h]; rfl, by rw [generateResponse_eq]; rw [h]; rfl⟩

/-- C1 witness: a concrete run with a failing provider call. -/
theorem c1_witness :
    (generateResponse ⟨fun _ => Except.ok [], ⟨fun _ _ => none, 1⟩⟩
        ⟨fun _ => none, []⟩ "bom dia" Mode.daytrade none []).1.provider
        = selectProvider "bom dia" Mode.daytrade
    ∧ (generateResponse ⟨fun _ => Except.ok [], ⟨fun _ _ => none, 1⟩⟩
        ⟨fun _ => none, []⟩ "bom dia" Mode.daytrade none []).1.content ≠ "" :=
  ⟨(c1_provider_failure_keeps_selected_provider
      ⟨fun _ => Except.ok [], ⟨fun _ _ => none, 1⟩⟩ ⟨fun _ => none, []⟩
      "bom dia" Mode.daytrade none [] fun _ => rfl).1,
   (c1_provider_failure_keeps_selected_provider
      ⟨fun _ => Except.ok [], ⟨fun _ _ => none, 1⟩⟩ ⟨fun _ => none, []⟩
      "bom dia" Mode.daytrade none [] fun _ => rfl).2.2.1⟩

/-- C8: two `generateResponse` runs with identical arguments and identical
knowledge-store and provider snapshots agree on the provider id and the
model name of the result, whatever `Math.random()` yields in each run —
including when both runs take the degraded mock path. -/
theorem c8_two_run_determinism :
    ∀ (env1 env2 : GenEnv) (db : DbState) (message : String) (mode : Mode)
      (userId : Option Nat) (hist : List ConversationTurn),
      env1.store = env2.store →
      env1.dispatch.providerResult = env2.dispatch.providerResult →
      (generateResponse env1 db message mode userId hist).1.provider
          = (generateResponse env2 db message mode userId hist).1.provider
      ∧ (generateResponse env1 db message mode userId hist).1.model
          = (generateResponse env2 db message mode userId hist).1.model := by
  intro env1 env2 db message mode userId hist hstore hprov
  rw [generateResponse_eq, generateResponse_eq]
  exact ⟨rfl, rfl⟩

/-- C8 witness: two degraded runs differing only in the random mock pick. -/
theorem c8_witness :
    (generateResponse ⟨fun _ => Except.ok [], ⟨fun _ _ => none, 0⟩⟩
        ⟨fun _ => none, []⟩ "oi mercado" Mode.portfolio none []).1.provider
      = (generateResponse ⟨fun _ => Except.ok [], ⟨fun _ _ => none, 1⟩⟩
        ⟨fun _ => none, []⟩ "oi mercado" Mode.portfolio none []).1.provider
    ∧ (generateResponse ⟨fun _ => Except.ok [], ⟨fun _ _ => none, 0⟩⟩
        ⟨fun _ => none, []⟩ "oi mercado" Mode.portfolio none []).1.model
      = (generateResponse ⟨fun _ => Except.ok [], ⟨fun _ _ => none, 1⟩⟩
        ⟨fun _ => none, []⟩ "oi mercado" Mode.portfolio none []).1.model :=
  c8_two_run_determinism ⟨fun _ => Except.ok [], ⟨fun _ _ => none, 0⟩⟩
    ⟨fun _ => Except.ok [], ⟨fun _ _ => none, 1⟩⟩ ⟨fun _ => none, []⟩
    "oi mercado" Mode.portfolio none [] rfl rfl

/-- C10: the reported token count is always strictly positive: a reply
that omits its token count or reports 0 is replaced by the default 100;
a failing provider call yields the mock counts 150 or 180; the per-mode
fallback results carry 50. A caller never observes `tokensUsed = 0`. -/
theorem c10_tokensUsed_positive :
    (∀ (env : GenEnv) (db : DbState) (message : String) (mode : Mode)
        (userId : Option Nat) (hist : List ConversationTurn),
        0 < (generateResponse env db message mode userId hist).1.tokensUsed)
    ∧ (∀ (env : GenEnv) (db : DbState) (message : String) (mode : Mode)
        (userId : Option Nat) (hist : List ConversationTurn)
        (reply : ProviderReply),
        (∀ ctx, env.dispatch.providerResult (selectProvider message mode) ctx
          = some reply) →
        (reply.tokensUsed = none ∨ reply.tokensUsed = some 0) →
        (generateResponse env db message mode userId hist).1.tokensUsed = 100)
    ∧ (∀ (env : GenEnv) (db : DbState) (message : String) (mode : Mode)
        (userId : Option Nat) (hist : List ConversationTurn),
        (∀ ctx, env.dispatch.providerResult (selectProvider message mode) ctx
          = none) →
        ((generateResponse env db message mode userId hist).1.tokensUsed = 150
          ∨ (generateResponse env db message mode userId hist).1.tokensUsed = 180))
    ∧ (∀ mode : Mode, (getFallbackResponse mode).tokensUsed = 50) := by
  refine ⟨?_, ?_, ?_, ?_⟩
  · intro env db message mode userId hist
    rw [generateResponse_eq]
    exact jsNumOr_pos _
  · intro env db message mode userId hist reply hok hzero
    rw [generateResponse_eq]
    show jsNumOr (tryCall _ _ _).tokensUsed 100 = 100
    unfold tryCall
    rw [hok]
    rcases hzero with h | h <;> rw [h] <;> rfl
  · intro env db message mode userId hist hfail
    rw [generateResponse_eq]
    show jsNumOr (tryCall _ _ _).tokensUsed 100 = 150
      ∨ jsNumOr (tryCall _ _ _).tokensUsed 100 = 180
    unfold tryCall
    rw [hfail]
    rcases getMockResponse_tokens env.dispatch.randomPick with h | h <;> rw [h]
    · exact Or.inl rfl
    · exact Or.inr rfl
  · intro mode
    cases mode <;> rfl

/-- C10 witness: a reply with an omitted token count is billed the default
100, and a failing provider call yields a mock token count. -/
theorem c10_witness :
    (generateResponse ⟨fun _ => Except.ok [], ⟨fun _ _ => some ⟨"resp", none⟩, 0⟩⟩
        ⟨fun _ => none, []⟩ "oi" Mode.consulta none []).1.tokensUsed = 100
    ∧ ((generateResponse ⟨fun _ => Except.ok [], ⟨fun _ _ => none, 0⟩⟩
        ⟨fun _ => none, []⟩ "oi" Mode.robot none []).1.tokensUsed = 150
      ∨ (generateResponse ⟨fun _ => Except.ok [], ⟨fun _ _ => none, 0⟩⟩
        ⟨fun _ => none, []⟩ "oi" Mode.robot none []).1.tokensUsed = 180) :=
  ⟨c10_tokensUsed_positive.2.1 ⟨fun _ => Except.ok [], ⟨fun _ _ => some ⟨"resp", none⟩, 0⟩⟩
      ⟨fun _ => none, []⟩ "oi" Mode.consulta none [] ⟨"resp", none⟩
      (fun _ => rfl) (Or.inl rfl),
   c10_tokensUsed_positive.2.2.1 ⟨fun _ => Except.ok [], ⟨fun _ _ => none, 0⟩⟩
      ⟨fun _ => none, []⟩ "oi" Mode.robot none [] fun _ => rfl⟩

/-- C3: one `logUsage` call on an existing `free`/`basic` account with a
positive balance decrements the balance by exactly one credit — whatever
`tokensUsed` was reported — and appends exactly one audit record; on a
`premium`/`unlimited` account the balances are untouched while the audit
record is still appended. After a `generateResponse` with a user id, the
store is exactly one such `logUsage` step of the initial store. -/
theorem c3_logUsage_metering :
    (∀ (db : DbState) (uid : Nat) (provider : String) (tokensUsed : Nat)
        (u : UserRow),
        db.users uid = some u → (u.plan = "free" ∨ u.plan = "basic") →
        0 < u.credits →
        (logUsage db uid provider tokensUsed).users uid
            = some { u with credits := u.credits - 1 }
          ∧ (logUsage db uid provider tokensUsed).apiLogs
            = db.apiLogs ++ [⟨uid, "ai_chat", "POST", 200⟩])
    ∧ (∀ (db : DbState) (uid : Nat) (provider : String) (tokensUsed : Nat)
        (u : UserRow),
        db.users uid = some u → (u.plan = "premium" ∨ u.plan = "unlimited") →
        (logUsage db uid provider tokensUsed).users = db.users
          ∧ (logUsage db uid provider tokensUsed).apiLogs
            = db.apiLogs ++ [⟨uid, "ai_chat", "POST", 200⟩])
    ∧ (∀ (env : GenEnv) (db : DbState) (message : String) (mode : Mode)
        (uid : Nat) (hist : List ConversationTurn),
        (generateResponse env db message mode (some uid) hist).2
          = logUsage db uid (selectProvider message mode)
              ((generateResponse env db message mode (some uid) hist).1.tokensUsed)) := by
  refine ⟨?_, ?_, ?_⟩
  · intro db uid provider tokensUsed u hu hplan hcred
    simp only [logUsage, hu]
    rw [if_pos ⟨hplan, hcred⟩]
    exact ⟨by simp, rfl⟩
  · intro db uid provider tokensUsed u hu hplan
    simp only [logUsage, hu]
    rw [if_neg ?_]
    · exact ⟨rfl, rfl⟩
    · rintro ⟨hp | hp, -⟩ <;> rcases hplan with h2 | h2 <;> rw [h2] at hp <;>
        exact absurd hp (by decide)
  · intro env db message mode uid hist
    rw [generateResponse_eq]

/-- C3 witness: a free-plan user with 3 credits has 2 after one metering
call, with exactly one new audit record; a premium user keeps 10 credits. -/
theorem c3_witness :
    (logUsage ⟨fun i => if i = 7 then some ⟨"free", 3⟩ else none, []⟩
        7 "openai" 999).users 7 = some ⟨"free", 2⟩
    ∧ (logUsage ⟨fun i => if i = 7 then some ⟨"free", 3⟩ else none, []⟩
        7 "openai" 999).apiLogs = [⟨7, "ai_chat", "POST", 200⟩]
    ∧ (logUsage ⟨fun i => if i = 9 then some ⟨"premium", 10⟩ else none, []⟩
        9 "claude" 5).users 9 = some ⟨"premium", 10⟩ := by
  have h1 := c3_logUsage_metering.1
    ⟨fun i => if i = 7 then some ⟨"free", 3⟩ else none, []⟩ 7 "openai" 999
    ⟨"free", 3⟩ rfl (Or.inl rfl) (by decide)
  have h2 := c3_logUsage_metering.2.1
    ⟨fun i => if i = 9 then some ⟨"premium", 10⟩ else none, []⟩ 9 "claude" 5
    ⟨"premium", 10⟩ rfl (Or.inl rfl)
  refine ⟨?_, ?_, ?_⟩
  · rw [h1.1]
    norm_num
  · rw [h1.2]
    rfl
  · rw [h2.1]
    rfl

/-- C7: knowledge retrieval degrades instead of failing — a failing store
makes `searchKnowledge` return the empty list rather than propagate the
error — and whenever the store honours the `LIMIT` of the query it is
sent, the result holds at most 5 snippets. -/
theorem c7_searchKnowledge_degradation :
    (∀ (store : SqlQuery → Except Unit (List KnowledgeItem)) (query : String)
        (mode : Mode),
        (∀ q, store q = Except.error ()) →
        searchKnowledge store query mode = [])
    ∧ (∀ (store : SqlQuery → Except Unit (List KnowledgeItem)) (query : String)
        (mode : Mode),
        (∀ q r, store q = Except.ok r → r.length ≤ q.limit) →
        (searchKnowledge store query mode).length ≤ 5) := by
  constructor
  · intro store query mode hfail
    simp only [searchKnowledge]
    rw [hfail]
  · intro store query mode hcap
    simp only [searchKnowledge]
    split
    · next knowledge heq => exact hcap _ _ heq
    · next => simp

/-- C7 witness: a failing store yields no snippets; a store honouring the
row cap yields at most five. -/
theorem c7_witness :
    searchKnowledge (fun _ => Except.error ()) "como está o winfut"
        Mode.daytrade = []
    ∧ (searchKnowledge (fun _ => Except.ok []) "como está o winfut"
        Mode.daytrade).length ≤ 5 :=
  ⟨c7_searchKnowledge_degradation.1 _ "como está o winfut" Mode.daytrade
    (fun _ => rfl),
   c7_searchKnowledge_degradation.2 _ "como está o winfut" Mode.daytrade
    (fun q r hr => by cases hr; simp)⟩

end AlfaSharksFlow
